import Mathlib

/-!
Shallow embedding of `src/frontend/src-tauri/src/lib.rs` (the Regia
application bootstrap) and proofs about it.

The source is a single Tauri entry point:

* `tauri::Builder::default()` followed by five `.plugin(...)` calls
  (shell, http, process, os, notification),
* a `.setup` callback that does
  `app.get_webview_window("main").unwrap()` and then
  `window.set_title("Regia - Document Intelligence").ok()`,
* `.run(tauri::generate_context!()).expect("error while running Regia")`.

The embedding keeps the source structure: a `Builder` accumulating an
ordered plugin list, an `App` whose windows come from the static
configuration (`tauri.conf.json`, supplied by `generate_context!` and not
present under `src/`, hence a parameter `Context`), a `setup` function
translated line by line from the closure, and `run` assembling the whole
startup.  External, OS-level outcomes that the Rust code only observes
through `Result` values — whether the `set_title` call succeeds, and
whether the event loop itself runs without error — are an explicit
environment `Env`.  A Rust panic (`unwrap` on `None`, `expect` on `Err`)
is modelled as the `Outcome.panicked` terminal outcome carrying the panic
message; a panicked process has no surviving windows.  The trace of
externally visible startup effects is a `List Event`; the event type also
has constructors for effects the code could have performed but does not
(spawning a child process, registering a window-close hook), so their
absence is a statement about the code rather than about the model.
-/

namespace Regia

/-- The literal window title set by the setup callback. -/
def regiaTitle : String := "Regia - Document Intelligence"

/-- The ordered list of plugin (capability) names registered by `run`,
in source order. -/
def pluginNames : List String := ["shell", "http", "process", "os", "notification"]

/-- The panic message produced by Rust when `Option::unwrap` is called on
`None`, as happens in the setup callback when the "main" window is missing. -/
def unwrapNoneMsg : String := "called Option::unwrap() on a None value"

/-- The panic message of the final `.expect(...)` when the application run
itself returns an error. -/
def runErrMsg : String := "error while running Regia"

/-- A webview window: a label and a mutable title. -/
structure WebviewWindow where
  label : String
  title : String
deriving Repr, DecidableEq

/-- The static application context produced by `tauri::generate_context!`:
the window labels declared in `tauri.conf.json`.  The configuration file is
not part of the sources, so the context is a parameter of the model. -/
structure Context where
  windows : List String
deriving Repr, DecidableEq

/-- Environment for the two external calls whose success the Rust code only
observes through return values: whether the OS-level `set_title` call
succeeds, and whether the Tauri event loop (`Builder::run`) itself succeeds. -/
structure Env where
  setTitleOk : Bool
  runOk : Bool
deriving Repr, DecidableEq

/-- Externally visible startup effects.  `spawnProcess` and
`registerCloseHook` are never emitted by the embedded code; they exist so
that their absence from every trace is a provable statement. -/
inductive Event where
  | registerPlugin (name : String)
  | setTitle (label : String) (title : String)
  | showWindow (label : String)
  | spawnProcess (cmd : String)
  | registerCloseHook
deriving Repr, DecidableEq

/-- Terminal outcome of `run`: normal completion, or a Rust panic with its
message. -/
inductive Outcome where
  | ok
  | panicked (msg : String)
deriving Repr, DecidableEq

/-- Result of the whole startup: the registered plugin list, the windows
surviving at the end (none if the process panicked), the effect trace, the
lines the code logged, and the terminal outcome. -/
structure RunResult where
  plugins : List String
  finalWindows : List WebviewWindow
  events : List Event
  log : List String
  outcome : Outcome
deriving Repr, DecidableEq

/-- `tauri::Builder`: accumulates the ordered plugin list. -/
structure Builder where
  plugins : List String
deriving Repr, DecidableEq

/-- `tauri::Builder::default()`. -/
def Builder.default : Builder := ⟨[]⟩

/-- `.plugin(...)`: appends one plugin registration. -/
def Builder.plugin (b : Builder) (name : String) : Builder :=
  ⟨b.plugins ++ [name]⟩

/-- The application handle available inside the setup callback. -/
structure App where
  config : Context
  windows : List WebviewWindow
deriving Repr, DecidableEq

/-- The windows created from the static configuration, with their initial
(pre-setup) titles. -/
def initialWindows (ctx : Context) : List WebviewWindow :=
  ctx.windows.map (fun l => WebviewWindow.mk l "")

/-- The application state at the moment the setup callback runs. -/
def initialApp (ctx : Context) : App :=
  { config := ctx, windows := initialWindows ctx }

/-- `app.get_webview_window(label)`: `Some` window if the label was declared
in the static configuration, `None` otherwise (the `WindowNotFound`
condition). -/
def App.get_webview_window (app : App) (label : String) : Option WebviewWindow :=
  app.windows.find? (fun w => w.label == label)

/-- `window.set_title(t)`: an OS call returning `Result<(), Error>`; on
success the window's title becomes `t`, on failure it is unchanged. -/
def set_title (env : Env) (w : WebviewWindow) (t : String) :
    Except String WebviewWindow :=
  if env.setTitleOk then Except.ok { w with title := t }
  else Except.error "failed to set window title"

/-- Replace the window with the given label in the window list. -/
def replaceWindow (ws : List WebviewWindow) (w : WebviewWindow) :
    List WebviewWindow :=
  ws.map (fun x => if x.label == w.label then w else x)

/-- Result of the setup callback: either `Ok(())` together with the updated
windows and the effects performed, or a Rust panic. -/
inductive SetupResult where
  | ok (windows : List WebviewWindow) (events : List Event)
  | panicked (msg : String)
deriving Repr, DecidableEq

/-- Whether setup returned `Ok(())`. -/
def SetupResult.isOk : SetupResult → Bool
  | SetupResult.ok _ _ => true
  | SetupResult.panicked _ => false

/-- The setup closure, translated line by line:
`let window = app.get_webview_window("main").unwrap();`
`window.set_title("Regia - Document Intelligence").ok();`
`Ok(())`.
`unwrap` on `None` panics; `.ok()` converts the `set_title` result to an
`Option` and discards it, so a failure leaves no trace (nothing is logged)
and the callback still returns `Ok(())`. -/
def setup (env : Env) (app : App) : SetupResult :=
  match app.get_webview_window "main" with
  | none => SetupResult.panicked unwrapNoneMsg
  | some w =>
    match set_title env w regiaTitle with
    | Except.ok w' =>
      SetupResult.ok (replaceWindow app.windows w') [Event.setTitle w.label regiaTitle]
    | Except.error _ =>
      SetupResult.ok app.windows []

/-- `run()`: build the application with the five plugins, run the setup
callback, then run the event loop; `.expect` panics with `runErrMsg` if the
event loop errors.  Windows are shown only once the event loop is running;
a panicked process presents no window. -/
def run (ctx : Context) (env : Env) : RunResult :=
  let b := ((((Builder.default.plugin "shell").plugin "http").plugin
      "process").plugin "os").plugin "notification"
  let regEvents := b.plugins.map Event.registerPlugin
  match setup env (initialApp ctx) with
  | SetupResult.panicked msg =>
    { plugins := b.plugins, finalWindows := [], events := regEvents,
      log := [], outcome := Outcome.panicked msg }
  | SetupResult.ok ws evs =>
    { plugins := b.plugins,
      finalWindows := if env.runOk then ws else [],
      events := regEvents ++ evs ++
        (if env.runOk then ws.map (fun w => Event.showWindow w.label) else []),
      log := [],
      outcome := if env.runOk then Outcome.ok else Outcome.panicked runErrMsg }

/-- The title of the "main" window in a window list, if present. -/
def mainTitle (ws : List WebviewWindow) : Option String :=
  (ws.find? (fun w => w.label == "main")).map WebviewWindow.title

/-- Whether an event is a plugin registration. -/
def Event.isRegisterPlugin : Event → Bool
  | Event.registerPlugin _ => true
  | _ => false

/-- Whether an event is a title change. -/
def Event.isSetTitle : Event → Bool
  | Event.setTitle _ _ => true
  | _ => false

/-- Whether an event spawns a child process. -/
def Event.isSpawn : Event → Bool
  | Event.spawnProcess _ => true
  | _ => false

/-- Whether an event registers a window-close / shutdown hook. -/
def Event.isCloseHook : Event → Bool
  | Event.registerCloseHook => true
  | _ => false

/-- Modelled from the spec: the Tauri capability enforcement layer is not
part of the sources (only the registrations in `lib.rs` are), and the spec
states that the capabilities reachable from the UI layer are exactly those
in the registration set enabled at startup.  So a capability is reachable
from the UI exactly when it is among the registered plugins of the run. -/
def uiReachable (r : RunResult) (c : String) : Prop := c ∈ r.plugins

/-! ### Characterization lemmas -/

lemma get_main_none (ctx : Context) (h : "main" ∉ ctx.windows) :
    (initialApp ctx).get_webview_window "main" = none := by
  rw [App.get_webview_window, List.find?_eq_none]
  intro w hw
  simp only [initialApp, initialWindows, List.mem_map] at hw
  obtain ⟨l, hl, rfl⟩ := hw
  simp only [beq_iff_eq]
  intro e
  exact h (e ▸ hl)

lemma find_mk_some (ls : List String) (h : "main" ∈ ls) :
    (ls.map (fun l => WebviewWindow.mk l "")).find? (fun w => w.label == "main") =
      some (WebviewWindow.mk "main" "") := by
  induction ls with
  | nil => cases h
  | cons a as ih =>
    by_cases ha : a = "main"
    · subst ha
      rw [List.map_cons, List.find?_cons_of_pos _ (by simp)]
    · have hm : "main" ∈ as := by
        rcases List.mem_cons.mp h with e | hm
        · exact absurd e.symm ha
        · exact hm
      rw [List.map_cons, List.find?_cons_of_neg _ (by simp [ha]), ih hm]

lemma get_main_some (ctx : Context) (h : "main" ∈ ctx.windows) :
    (initialApp ctx).get_webview_window "main" = some (WebviewWindow.mk "main" "") := by
  rw [App.get_webview_window]
  exact find_mk_some ctx.windows h

lemma find_replaced (ls : List String) (h : "main" ∈ ls) :
    (replaceWindow (ls.map (fun l => WebviewWindow.mk l ""))
        (WebviewWindow.mk "main" regiaTitle)).find? (fun w => w.label == "main") =
      some (WebviewWindow.mk "main" regiaTitle) := by
  induction ls with
  | nil => cases h
  | cons a as ih =>
    by_cases ha : a = "main"
    · subst ha
      rw [replaceWindow, List.map_cons, List.map_cons]
      rw [if_pos (by simp), List.find?_cons_of_pos _ (by simp)]
    · have hm : "main" ∈ as := by
        rcases List.mem_cons.mp h with e | hm
        · exact absurd e.symm ha
        · exact hm
      rw [replaceWindow, List.map_cons, List.map_cons]
      rw [if_neg (by simp [ha]), List.find?_cons_of_neg _ (by simp [ha])]
      exact ih hm

lemma setup_not_found (env : Env) (ctx : Context) (h : "main" ∉ ctx.windows) :
    setup env (initialApp ctx) = SetupResult.panicked unwrapNoneMsg := by
  simp [setup, get_main_none ctx h]

lemma setup_found_titleOk (env : Env) (ctx : Context) (h : "main" ∈ ctx.windows)
    (ht : env.setTitleOk = true) :
    setup env (initialApp ctx) =
      SetupResult.ok
        (replaceWindow (initialWindows ctx) (WebviewWindow.mk "main" regiaTitle))
        [Event.setTitle "main" regiaTitle] := by
  simp only [setup]
  rw [get_main_some ctx h]
  simp [set_title, ht, initialApp]

lemma setup_found_titleErr (env : Env) (ctx : Context) (h : "main" ∈ ctx.windows)
    (ht : env.setTitleOk = false) :
    setup env (initialApp ctx) = SetupResult.ok (initialWindows ctx) [] := by
  simp only [setup]
  rw [get_main_some ctx h]
  simp [set_title, ht, initialApp]

lemma run_not_found (ctx : Context) (env : Env) (h : "main" ∉ ctx.windows) :
    run ctx env =
      { plugins := pluginNames, finalWindows := [],
        events := pluginNames.map Event.registerPlugin, log := [],
        outcome := Outcome.panicked unwrapNoneMsg } := by
  simp [run, setup_not_found env ctx h, Builder.default, Builder.plugin, pluginNames]

lemma run_found_titleOk (ctx : Context) (env : Env) (h : "main" ∈ ctx.windows)
    (ht : env.setTitleOk = true) :
    run ctx env =
      { plugins := pluginNames,
        finalWindows :=
          if env.runOk then
            replaceWindow (initialWindows ctx) (WebviewWindow.mk "main" regiaTitle)
          else [],
        events := pluginNames.map Event.registerPlugin ++
          [Event.setTitle "main" regiaTitle] ++
          (if env.runOk then
            (replaceWindow (initialWindows ctx) (WebviewWindow.mk "main" regiaTitle)).map
              (fun w => Event.showWindow w.label)
          else []),
        log := [],
        outcome := if env.runOk then Outcome.ok else Outcome.panicked runErrMsg } := by
  simp [run, setup_found_titleOk env ctx h ht, Builder.default, Builder.plugin, pluginNames]

lemma run_found_titleErr (ctx : Context) (env : Env) (h : "main" ∈ ctx.windows)
    (ht : env.setTitleOk = false) :
    run ctx env =
      { plugins := pluginNames,
        finalWindows := if env.runOk then initialWindows ctx else [],
        events := pluginNames.map Event.registerPlugin ++
          (if env.runOk then
            (initialWindows ctx).map (fun w => Event.showWindow w.label)
          else []),
        log := [],
        outcome := if env.runOk then Outcome.ok else Outcome.panicked runErrMsg } := by
  simp [run, setup_found_titleErr env ctx h ht, Builder.default, Builder.plugin, pluginNames]

lemma run_plugins (ctx : Context) (env : Env) : (run ctx env).plugins = pluginNames := by
  by_cases hm : "main" ∈ ctx.windows
  · by_cases ht : env.setTitleOk = true
    · rw [run_found_titleOk ctx env hm ht]
    · rw [run_found_titleErr ctx env hm (by simpa using ht)]
  · rw [run_not_found ctx env hm]

/-- Every run's trace is the five registrations followed by a tail that
contains no registration, no process spawn and no close hook, and whose only
title event is the main-window title set. -/
lemma run_events_shape (ctx : Context) (env : Env) :
    ∃ rest, (run ctx env).events = pluginNames.map Event.registerPlugin ++ rest ∧
      rest.all (fun e => !e.isRegisterPlugin && !e.isSpawn && !e.isCloseHook) = true ∧
      rest.all (fun e => !e.isSetTitle || (e == Event.setTitle "main" regiaTitle)) = true := by
  have showsOk : ∀ ws : List WebviewWindow,
      (ws.map (fun w => Event.showWindow w.label)).all
        (fun e => !e.isRegisterPlugin && !e.isSpawn && !e.isCloseHook) = true ∧
      (ws.map (fun w => Event.showWindow w.label)).all
        (fun e => !e.isSetTitle || (e == Event.setTitle "main" regiaTitle)) = true := by
    intro ws
    constructor <;>
    · rw [List.all_eq_true]
      intro e he
      rcases List.mem_map.mp he with ⟨w, -, rfl⟩
      rfl
  by_cases hm : "main" ∈ ctx.windows
  · by_cases ht : env.setTitleOk = true
    · rw [run_found_titleOk ctx env hm ht]
      refine ⟨_, List.append_assoc _ _ _, ?_, ?_⟩ <;>
      · cases hr : env.runOk <;>
          simp [List.all_append, showsOk, Event.isRegisterPlugin, Event.isSpawn,
            Event.isCloseHook, Event.isSetTitle]
    · rw [run_found_titleErr ctx env hm (by simpa using ht)]
      refine ⟨_, rfl, ?_, ?_⟩ <;>
      · cases hr : env.runOk <;> simp [showsOk]
  · rw [run_not_found ctx env hm]
    exact ⟨[], by simp, rfl, rfl⟩

example : run (Context.mk ["main"]) (Env.mk true true) =
    { plugins := pluginNames,
      finalWindows := [WebviewWindow.mk "main" regiaTitle],
      events := pluginNames.map Event.registerPlugin ++
        [Event.setTitle "main" regiaTitle, Event.showWindow "main"],
      log := [], outcome := Outcome.ok } := by decide

example : run (Context.mk []) (Env.mk true true) =
    { plugins := pluginNames, finalWindows := [],
      events := pluginNames.map Event.registerPlugin,
      log := [], outcome := Outcome.panicked unwrapNoneMsg } := by decide

example : (run (Context.mk ["main"]) (Env.mk false true)).outcome = Outcome.ok := by decide

example : (run (Context.mk ["main"]) (Env.mk true false)).outcome =
    Outcome.panicked runErrMsg := by decide

lemma all_not_register_filter {rest : List Event}
    (hall : rest.all (fun e => !e.isRegisterPlugin && !e.isSpawn && !e.isCloseHook) = true) :
    rest.filter (fun e => e.isRegisterPlugin) = [] := by
  rw [List.filter_eq_nil_iff]
  intro e he
  have h := List.all_eq_true.mp hall e he
  simp only [Bool.and_eq_true, Bool.not_eq_true'] at h
  simp [h.1.1]

/-! ### Claims -/

/-- Claim C1: after the setup callback runs, for every valid configuration
in which the window labelled "main" exists (the OS-level title call itself
succeeding), the callback has set the main window's title to the literal
"Regia - Document Intelligence". -/
theorem regia_C1_main_title_after_setup (ctx : Context) (env : Env)
    (hm : "main" ∈ ctx.windows) (ht : env.setTitleOk = true) :
    ∃ ws, setup env (initialApp ctx) =
        SetupResult.ok ws [Event.setTitle "main" regiaTitle] ∧
      mainTitle ws = some regiaTitle := by
  refine ⟨_, setup_found_titleOk env ctx hm ht, ?_⟩
  rw [mainTitle, initialWindows, find_replaced ctx.windows hm]
  rfl

theorem regia_C1_main_title_after_setup_witness :
    ("main" ∈ (Context.mk ["main"]).windows ∧ (Env.mk true true).setTitleOk = true) ∧
      ∃ ws, setup (Env.mk true true) (initialApp (Context.mk ["main"])) =
          SetupResult.ok ws [Event.setTitle "main" regiaTitle] ∧
        mainTitle ws = some regiaTitle :=
  ⟨⟨by simp, rfl⟩,
    regia_C1_main_title_after_setup (Context.mk ["main"]) (Env.mk true true) (by simp) rfl⟩

/-- Claim C2: if the window labelled "main" was not declared in the static
configuration, obtaining the main window handle during setup fails
(`get_webview_window` returns `none`, the WindowNotFound condition), and
startup aborts fatally — the run panics with the `unwrap` message and no
window survives, so the condition is never recovered from at runtime. -/
theorem regia_C2_missing_main_window_fatal (ctx : Context) (env : Env)
    (hm : "main" ∉ ctx.windows) :
    (initialApp ctx).get_webview_window "main" = none ∧
    (run ctx env).outcome = Outcome.panicked unwrapNoneMsg ∧
    (run ctx env).finalWindows = [] := by
  refine ⟨get_main_none ctx hm, ?_, ?_⟩ <;> rw [run_not_found ctx env hm]

theorem regia_C2_missing_main_window_fatal_witness :
    ("main" ∉ (Context.mk []).windows) ∧
      ((initialApp (Context.mk [])).get_webview_window "main" = none ∧
        (run (Context.mk []) (Env.mk true true)).outcome = Outcome.panicked unwrapNoneMsg ∧
        (run (Context.mk []) (Env.mk true true)).finalWindows = []) :=
  ⟨by simp, regia_C2_missing_main_window_fatal (Context.mk []) (Env.mk true true) (by simp)⟩

/-- Claim C3: the capability registration set enabled by `run` is exactly
the ordered list ["shell", "http", "process", "os", "notification"], and
every registration happens during application build, before the setup
callback executes and before any window is shown: the registrations are
exactly the first five trace events, and nothing after them is a
registration (in particular every `showWindow` event comes later). -/
theorem regia_C3_capability_set_registered_first (ctx : Context) (env : Env) :
    (run ctx env).plugins = pluginNames ∧
    (run ctx env).events.take 5 = pluginNames.map Event.registerPlugin ∧
    ((run ctx env).events.drop 5).all (fun e => !e.isRegisterPlugin) = true := by
  obtain ⟨rest, he, hall, -⟩ := run_events_shape ctx env
  refine ⟨run_plugins ctx env, ?_, ?_⟩
  · rw [he]
    simp [pluginNames]
  · rw [he]
    simp only [pluginNames, List.map_cons, List.map_nil, List.cons_append,
      List.nil_append, List.drop_succ_cons, List.drop_zero]
    rw [List.all_eq_true] at hall ⊢
    intro e he'
    have h := hall e he'
    simp only [Bool.and_eq_true] at h
    exact h.1.1

/-- Claim C4 (amended): when setting the window title fails, the failure is
non-fatal — the error is silently discarded (`.ok()`), nothing is logged,
and startup continues exactly as in the run where the title call succeeds. -/
theorem regia_C4_title_failure_silent_nonfatal (ctx : Context) (r : Bool)
    (hm : "main" ∈ ctx.windows) :
    (setup (Env.mk false r) (initialApp ctx)).isOk = true ∧
    (run ctx (Env.mk false r)).log = [] ∧
    (run ctx (Env.mk false r)).outcome = (run ctx (Env.mk true r)).outcome := by
  refine ⟨?_, ?_, ?_⟩
  · rw [setup_found_titleErr (Env.mk false r) ctx hm rfl]
    rfl
  · rw [run_found_titleErr ctx (Env.mk false r) hm rfl]
  · rw [run_found_titleErr ctx (Env.mk false r) hm rfl,
      run_found_titleOk ctx (Env.mk true r) hm rfl]

theorem regia_C4_title_failure_silent_nonfatal_witness :
    ("main" ∈ (Context.mk ["main"]).windows) ∧
      ((setup (Env.mk false true) (initialApp (Context.mk ["main"]))).isOk = true ∧
        (run (Context.mk ["main"]) (Env.mk false true)).log = [] ∧
        (run (Context.mk ["main"]) (Env.mk false true)).outcome =
          (run (Context.mk ["main"]) (Env.mk true true)).outcome) :=
  ⟨by simp, regia_C4_title_failure_silent_nonfatal (Context.mk ["main"]) true (by simp)⟩

/-- Claim C4 fails as stated: in the concrete run where the "main" window
exists and the OS title call fails, the error is NOT logged — the log is
empty (the code discards the `Result` with `.ok()` and contains no logging
call) even though startup does continue to completion. -/
theorem regia_C4_counterexample :
    set_title (Env.mk false true) (WebviewWindow.mk "main" "") regiaTitle =
      Except.error "failed to set window title" ∧
    (run (Context.mk ["main"]) (Env.mk false true)).log = [] ∧
    (run (Context.mk ["main"]) (Env.mk false true)).outcome = Outcome.ok :=
  ⟨rfl, rfl, rfl⟩

/-- Claim C5: every fatal startup error — the missing main window and a
failure of the application run itself alike — aborts startup with a panic
carrying a non-empty, visible message, and on such a failure no window
survives to appear functional. -/
theorem regia_C5_fatal_errors_loud (ctx : Context) (env : Env)
    (h : (run ctx env).outcome ≠ Outcome.ok) :
    ∃ msg, (run ctx env).outcome = Outcome.panicked msg ∧ msg ≠ "" ∧
      (run ctx env).finalWindows = [] := by
  by_cases hm : "main" ∈ ctx.windows
  · by_cases ht : env.setTitleOk = true
    · rw [run_found_titleOk ctx env hm ht] at h ⊢
      cases hr : env.runOk
      · exact ⟨runErrMsg, by simp [hr], by decide, by simp [hr]⟩
      · exact absurd (by simp [hr]) h
    · rw [run_found_titleErr ctx env hm (by simpa using ht)] at h ⊢
      cases hr : env.runOk
      · exact ⟨runErrMsg, by simp [hr], by decide, by simp [hr]⟩
      · exact absurd (by simp [hr]) h
  · rw [run_not_found ctx env hm]
    exact ⟨unwrapNoneMsg, rfl, by decide, rfl⟩

theorem regia_C5_fatal_errors_loud_witness :
    ((run (Context.mk []) (Env.mk true true)).outcome ≠ Outcome.ok) ∧
      ∃ msg, (run (Context.mk []) (Env.mk true true)).outcome = Outcome.panicked msg ∧
        msg ≠ "" ∧ (run (Context.mk []) (Env.mk true true)).finalWindows = [] :=
  ⟨by decide, regia_C5_fatal_errors_loud (Context.mk []) (Env.mk true true) (by decide)⟩

/-- Claim C6: the capability registration set is written exactly once at
startup and read-only thereafter — in every run the final plugin list is the
build-time list, the registration events of the whole trace are exactly the
five startup registrations, and no registration event occurs after the
build prefix. -/
theorem regia_C6_capability_set_write_once (ctx : Context) (env : Env) :
    (run ctx env).plugins = pluginNames ∧
    (run ctx env).events.filter (fun e => e.isRegisterPlugin) =
      pluginNames.map Event.registerPlugin ∧
    ((run ctx env).events.drop 5).filter (fun e => e.isRegisterPlugin) = [] := by
  obtain ⟨rest, he, hall, -⟩ := run_events_shape ctx env
  have hrest := all_not_register_filter hall
  refine ⟨run_plugins ctx env, ?_, ?_⟩
  · rw [he, List.filter_append, hrest]
    simp [pluginNames, Event.isRegisterPlugin]
  · rw [he]
    simp only [pluginNames, List.map_cons, List.map_nil, List.cons_append,
      List.nil_append, List.drop_succ_cons, List.drop_zero]
    exact hrest

/-- Claim C8: no capability outside the registered set is reachable from the
UI layer — every capability reachable from the UI (modelled from the spec as
membership in the registration set of the run) is one of the five names
["shell", "http", "process", "os", "notification"]. -/
theorem regia_C8_no_capability_outside_set (ctx : Context) (env : Env) (c : String)
    (h : uiReachable (run ctx env) c) : c ∈ pluginNames := by
  rw [uiReachable, run_plugins ctx env] at h
  exact h

theorem regia_C8_no_capability_outside_set_witness :
    uiReachable (run (Context.mk ["main"]) (Env.mk true true)) "shell" ∧
      "shell" ∈ pluginNames := by
  have h : uiReachable (run (Context.mk ["main"]) (Env.mk true true)) "shell" := by
    show "shell" ∈ (run (Context.mk ["main"]) (Env.mk true true)).plugins
    decide
  exact ⟨h, regia_C8_no_capability_outside_set (Context.mk ["main"]) (Env.mk true true) "shell" h⟩

/-- Claim C9: whenever the window labelled "main" exists, the setup callback
returns Ok(()) regardless of whether the title call succeeds or fails — the
`set_title` error is discarded by `.ok()` and can never surface as a setup
error. -/
theorem regia_C9_setup_always_ok (ctx : Context) (env : Env)
    (hm : "main" ∈ ctx.windows) :
    (setup env (initialApp ctx)).isOk = true := by
  by_cases ht : env.setTitleOk = true
  · rw [setup_found_titleOk env ctx hm ht]
    rfl
  · rw [setup_found_titleErr env ctx hm (by simpa using ht)]
    rfl

theorem regia_C9_setup_always_ok_witness :
    ("main" ∈ (Context.mk ["main"]).windows) ∧
      (setup (Env.mk false true) (initialApp (Context.mk ["main"]))).isOk = true :=
  ⟨by simp, regia_C9_setup_always_ok (Context.mk ["main"]) (Env.mk false true) (by simp)⟩

/-- Claim C10: `run` never spawns a companion process and never registers a
shutdown or window-close hook, and its only startup effects are the five
plugin registrations and (possibly) setting the main window title — every
trace event is spawn-free and hook-free, the registrations are exactly the
five, and the only title event ever emitted is the main-window title set. -/
theorem regia_C10_no_spawn_no_close_hook (ctx : Context) (env : Env) :
    ((run ctx env).events.all (fun e => !e.isSpawn && !e.isCloseHook)) = true ∧
    (run ctx env).events.filter (fun e => e.isRegisterPlugin) =
      pluginNames.map Event.registerPlugin ∧
    ((run ctx env).events.all
      (fun e => !e.isSetTitle || (e == Event.setTitle "main" regiaTitle))) = true := by
  obtain ⟨rest, he, hall, htitle⟩ := run_events_shape ctx env
  refine ⟨?_, ?_, ?_⟩
  · rw [he, List.all_append, Bool.and_eq_true]
    refine ⟨by decide, ?_⟩
    rw [List.all_eq_true] at hall ⊢
    intro e he'
    have h := hall e he'
    simp only [Bool.and_eq_true] at h
    rw [Bool.and_eq_true]
    exact ⟨h.1.2, h.2⟩
  · rw [he, List.filter_append, all_not_register_filter hall]
    simp [pluginNames, Event.isRegisterPlugin]
  · rw [he, List.all_append, Bool.and_eq_true]
    exact ⟨by decide, htitle⟩

end Regia
